import Mathlib

/-!
Shallow embedding of the tp2 blocking-queue dispatch engine.

The queue implementation is embedded from src/unnamed/part_000
(blocking_q.c: __blocking_q_take, blocking_q_init, blocking_q_put,
blocking_q_get, blocking_q_drain, blocking_q_drain_at_least) and the
scheduler/driver from src/unnamed/part_001 (scheduler, main).

Modelling conventions:
- a task handle (task_ptr) is the allocation id (address) of the record,
  modelled as a Nat; the queue state is the chain of nodes reachable from
  q->first, in order, together with the q->sz counter;
- undefined behaviour (a NULL dereference, a store past the end of a
  buffer) and a wait on the condition variable that no other party in the
  modelled scenario can ever signal are both modelled as `none`: the call
  does not complete normally;
- the pthread primitives themselves are modelled by Bool parameters saying
  whether their creation succeeds; the lock/unlock structure of each
  operation is modelled separately as an action trace (see qAction below).
-/

/-- A task handle: the allocation id of the task record. -/
abbrev task_ptr := Nat

/-- State of a blocking_q: the chain of nodes reachable from q->first (in
order, each node holding its task_ptr), and the q->sz counter. -/
structure blocking_q where
  first : List task_ptr
  sz : Nat
  deriving DecidableEq, Repr

/-- Embeds __blocking_q_take (part_000 lines 24-34): reads q->first,
takes first->data, sets q->first = first->next, decrements q->sz.
When q->first is NULL the load of first->data dereferences NULL: `none`. -/
def __blocking_q_take (q : blocking_q) : Option (task_ptr × blocking_q) :=
  match q.first with
  | [] => none
  | d :: rest => some (d, ⟨rest, q.sz - 1⟩)

/-- Embeds blocking_q_init (part_000 lines 42-65): sets sz to 0 and first
to NULL, calls pthread_mutex_init and pthread_cond_init (a failure of
either only triggers a printf and execution continues), locks the mutex,
and returns `false` unconditionally. The two Bool parameters model whether
the mutex and the condition variable are created successfully. -/
def blocking_q_init (_mutexOk _condOk : Bool) : blocking_q × Bool :=
  (⟨[], 0⟩, false)

/-- Embeds blocking_q_put (part_000 lines 100-118). `mallocOk` models the
malloc of the new node: on failure the function returns 0 with the queue
unchanged, before touching the queue. Otherwise it walks
`curr = q->first; while (curr->next != NULL) curr = curr->next;` and links
the node after `curr`: on an empty queue `curr` is NULL and reading
`curr->next` dereferences NULL, so the call is `none`; on a non-empty
queue the node is linked at the tail and q->sz is incremented (the
condition variable is signalled when the new sz equals 1, which cannot
happen on this path). -/
def blocking_q_put (q : blocking_q) (data : task_ptr) (mallocOk : Bool) :
    Option (blocking_q × Bool) :=
  if !mallocOk then some (q, false)
  else
    match q.first with
    | [] => none
    | _ :: _ => some (⟨q.first ++ [data], q.sz + 1⟩, true)

/-- Embeds blocking_q_get (part_000 lines 127-143) in a sequential
setting: while q->sz is 0 the thread waits on the condition variable; with
no concurrent producer in the modelled scenario the wait never returns, so
the call is `none`. Otherwise the element is taken with __blocking_q_take
(the trailing `if (q->sz == 0) pthread_mutex_lock(&q->lock);` only touches
the lock; it appears in the action-trace model). -/
def blocking_q_get (q : blocking_q) : Option (task_ptr × blocking_q) :=
  if q.sz = 0 then none
  else __blocking_q_take q

/-- Embeds the drain loop `while (q->sz > 0) data[counter++] =
__blocking_q_take(q);` shared by blocking_q_drain and
blocking_q_drain_at_least, with __blocking_q_take inlined. Arguments are
the node chain and the sz counter; the result is the list of elements
written (in write order) and the final queue state. Taking from a NULL
head (sz > 0 with an empty chain) is `none`. -/
def qDrainLoop (firstL : List task_ptr) (sz : Nat) :
    Option (List task_ptr × blocking_q) :=
  if sz = 0 then some ([], ⟨firstL, 0⟩)
  else
    match firstL with
    | [] => none
    | d :: rest =>
      match qDrainLoop rest (sz - 1) with
      | none => none
      | some (ds, qf) => some (d :: ds, qf)

/-- Result of blocking_q_drain. `ret` is the returned count: `none` means
the function reached its closing brace with no return statement, so the
value handed to the caller is indeterminate. `callerBuf` is what was
stored into the area the caller passed as `data`; `mallocBuf` is what was
stored into the fresh area the function malloc'd (and leaked). -/
structure drainResult where
  ret : Option Nat
  q : blocking_q
  callerBuf : List task_ptr
  mallocBuf : List task_ptr
  deriving DecidableEq, Repr

/-- Embeds blocking_q_drain (part_000 lines 153-164). On an empty queue it
returns 0 at once. Otherwise it overwrites its `data` parameter with a
fresh malloc of `sz` slots before any store, so the caller's buffer is
never written; it then drains every element (the loop is bounded by q->sz,
not by `sz`), so when more than `sz` elements are present the store
`data[counter++]` runs past the end of the malloc'd area: `none`. The
function ends with a pthread_mutex_lock and no return statement. -/
def blocking_q_drain (q : blocking_q) (sz : Nat) : Option drainResult :=
  if q.sz = 0 then some ⟨some 0, q, [], []⟩
  else
    match qDrainLoop q.first q.sz with
    | none => none
    | some (ds, qf) =>
      if sz < ds.length then none
      else some ⟨none, qf, [], ds⟩

/-- Result of blocking_q_drain_at_least: the returned counter, the final
queue state, and what was written into the caller's buffer. -/
structure dalResult where
  ret : Nat
  q : blocking_q
  callerBuf : List task_ptr
  deriving DecidableEq, Repr

/-- Embeds blocking_q_drain_at_least (part_000 lines 175-191) in a
sequential setting. The loop at `loop:` drains every available element
into the caller's `data` buffer, ignoring the `sz` capacity: when more
than `sz` elements are present the store runs past the end of the buffer
(`none`). After the loop (which leaves q->sz = 0) the function locks the
mutex and, when `min > counter`, waits on the condition variable while
`q->sz < min - counter`; with no concurrent producer the wait never
returns (`none`). Otherwise it returns `counter`. -/
def blocking_q_drain_at_least (q : blocking_q) (sz min : Nat) :
    Option dalResult :=
  match qDrainLoop q.first q.sz with
  | none => none
  | some (ds, qf) =>
    if sz < ds.length then none
    else if min > ds.length then none
    else some ⟨ds.length, qf, ds⟩

/-- Embeds PROCESSOR_COUNT (part_001). -/
def PROCESSOR_COUNT : Nat := 4

/-- Embeds POISON_PILL (part_001): the reserved sentinel task kind. -/
def POISON_PILL : Char := 'K'

/-- Embeds the loop `for (int i = 0; i < PROCESSOR_COUNT; ++i)
blocking_q_put(proc->tasks, poison);` at the end of scheduler (part_001):
the SAME record id `poison` is put into each processor queue in turn with
the part_000 blocking_q_put (its return value is ignored; its node malloc
is assumed to succeed). A crashing put makes the whole loop `none`. -/
def putSentinelLoop (qs : List blocking_q) (poison : task_ptr) :
    Option (List blocking_q) :=
  match qs with
  | [] => some []
  | q :: rest =>
    match blocking_q_put q poison true with
    | none => none
    | some (q', _) =>
      match putSentinelLoop rest poison with
      | none => none
      | some qs' => some (q' :: qs')

/-- Effects of the scheduler's shutdown fan-out: the processor queues
afterwards, how many sentinel task records were malloc'd, and which record
ids were freed before the scheduler thread returns. -/
structure stopEffect where
  queues : List blocking_q
  sentinelRecords : Nat
  freedIds : List task_ptr
  deriving DecidableEq, Repr

/-- Embeds the tail of scheduler (part_001 lines 113-130): after the run
loop stops on the poison pill, `task_ptr poison = malloc(sizeof(task));
poison->type = POISON_PILL;` allocates ONE record (its id is `nextId`, the
address malloc returns), the loop puts that same pointer into every
processor queue, and `free(poison)` frees it before the thread returns. -/
def scheduler_stop (procQs : List blocking_q) (nextId : task_ptr) :
    Option stopEffect :=
  match putSentinelLoop procQs nextId with
  | none => none
  | some qs => some ⟨qs, 1, [nextId]⟩

/-- Atomic actions a queue operation performs on the shared queue state
and its synchronisation primitives, in source order. -/
inductive qAction where
  | lock
  | unlock
  | wait
  | signal
  | readSz
  | writeSz
  | readLinks
  | writeLinks
  deriving DecidableEq, Repr

/-- Change an action makes to the number of times the operation holds the
queue's mutex (pthread_mutex_lock adds one, pthread_mutex_unlock removes
one; a wait would release and reacquire, but no trace below both holds the
lock and waits). -/
def lockDelta (a : qAction) : Int :=
  match a with
  | qAction.lock => 1
  | qAction.unlock => -1
  | _ => 0

/-- Actions the spec requires to happen under the lock: reads and writes
of the count (q->sz) and structural mutation of the FIFO linkage. -/
def touchesGuarded (a : qAction) : Bool :=
  match a with
  | qAction.readSz => true
  | qAction.writeSz => true
  | qAction.writeLinks => true
  | _ => false

/-- Checks a trace against the lock discipline, starting from `held`
acquisitions by this operation: every guarded action must occur while the
operation holds the lock. -/
def disciplineFrom : Int → List qAction → Bool
  | _, [] => true
  | held, a :: tr =>
    (if touchesGuarded a then decide (0 < held) else true) &&
      disciplineFrom (held + lockDelta a) tr

/-- Lock discipline of one queue operation, which starts out not holding
the queue's mutex. -/
def opDiscipline (tr : List qAction) : Bool := disciplineFrom 0 tr

/-- Action trace of blocking_q_put (part_000 lines 100-118) on a non-empty
queue with malloc succeeding: read q->first and walk the links, link the
new node after the tail, increment q->sz (a read then a write), re-read
q->sz for the `== 1` test, possibly signal. The function contains no
pthread_mutex_lock or pthread_mutex_unlock call. -/
def put_trace : List qAction :=
  [qAction.readLinks, qAction.writeLinks, qAction.readSz, qAction.writeSz,
   qAction.readSz, qAction.signal]

/-- Action trace of blocking_q_get (part_000 lines 127-143) on a non-empty
queue: read q->sz in the while test, take the head element
(__blocking_q_take: read the links, write q->first, read and write q->sz),
then read q->sz again and, when it is 0, call pthread_mutex_lock. No
unlock ever happens. -/
def get_trace : List qAction :=
  [qAction.readSz, qAction.readLinks, qAction.writeLinks, qAction.readSz,
   qAction.writeSz, qAction.readSz, qAction.lock]

/-- Action trace of blocking_q_drain (part_000 lines 153-164) on a queue
holding one element: read q->sz (emptiness test), read q->sz (loop test),
take the element, read q->sz (loop test fails), pthread_mutex_lock at the
end. -/
def drain_trace : List qAction :=
  [qAction.readSz, qAction.readSz, qAction.readLinks, qAction.writeLinks,
   qAction.readSz, qAction.writeSz, qAction.readSz, qAction.lock]

/-- EXIT_SUCCESS as returned by main. -/
def EXIT_SUCCESS : Nat := 0

/-- EXIT_FAILURE as returned by main. -/
def EXIT_FAILURE : Nat := 1

/-- Embeds processor_init (part_001): its body is only the TODO printf and
it returns true unconditionally. -/
def processor_init (_id : Nat) : Bool := true

/-- Embeds the processor startup loop in main (part_001): for each of
`count` processors starting at index `i`, return EXIT_FAILURE when
processor_init fails or when pthread_create fails (outcome given by
`procCreateOk`). The result is the number of processor threads created and
whether the loop completed. -/
def procStartLoop (procCreateOk : Nat → Bool) (i count : Nat) : Nat × Bool :=
  match count with
  | 0 => (0, true)
  | c + 1 =>
    if !processor_init i then (0, false)
    else if !procCreateOk i then (0, false)
    else
      match procStartLoop procCreateOk (i + 1) c with
      | (k, ok) => (k + 1, ok)

/-- Task letters of part_001's fill loop switch: A, B, C and D enqueue a
task; digits sleep; anything else is skipped. -/
def isTaskChar (c : Char) : Bool :=
  c = 'A' || c = 'B' || c = 'C' || c = 'D'

/-- Embeds the fill loop of main (part_001): for each character of argv[1]
that is a task letter, malloc a task record and blocking_q_put it into the
scheduler queue (part_000 put, node malloc assumed to succeed, return
value ignored); digits only sleep. Returns the queue and the number of
task records enqueued; a crashing put makes the run `none`. The record id
enqueued is the character code of the task letter. -/
def fillLoop (q : blocking_q) : List Char → Nat → Option (blocking_q × Nat)
  | [], n => some (q, n)
  | c :: rest, n =>
    if isTaskChar c then
      match blocking_q_put q c.toNat true with
      | none => none
      | some (q', _) => fillLoop q' rest (n + 1)
    else fillLoop q rest n

/-- Observable outcome of a run of main: the exit code, how many threads
were created (scheduler plus processors), and how many task records were
enqueued into the scheduler queue. -/
structure mainOutcome where
  exit : Nat
  threadsCreated : Nat
  tasksEnqueued : Nat
  deriving DecidableEq, Repr

/-- Embeds main (part_001 lines 154-250) as a sequential model.
`argPresent` models argc >= 2 and `taskStr` is argv[1]; `mallocOk` is the
malloc of sched_q; `mutexOk` and `condOk` feed blocking_q_init;
`schedCreateOk` and `procCreateOk` are the pthread_create outcomes. In
order: missing argument returns EXIT_FAILURE; a NULL sched_q or a false
blocking_q_init returns EXIT_FAILURE; a failed scheduler-thread create
returns EXIT_FAILURE; the processor loop may return EXIT_FAILURE; then the
fill loop enqueues the tasks, the poison pill (record id 0) is put, and
after the joins main returns EXIT_SUCCESS. -/
def mainRun (argPresent : Bool) (taskStr : List Char)
    (mallocOk mutexOk condOk schedCreateOk : Bool)
    (procCreateOk : Nat → Bool) : Option mainOutcome :=
  if !argPresent then some ⟨EXIT_FAILURE, 0, 0⟩
  else if !mallocOk then some ⟨EXIT_FAILURE, 0, 0⟩
  else
    match blocking_q_init mutexOk condOk with
    | (q0, ok) =>
      if !ok then some ⟨EXIT_FAILURE, 0, 0⟩
      else if !schedCreateOk then some ⟨EXIT_FAILURE, 0, 0⟩
      else
        match procStartLoop procCreateOk 0 PROCESSOR_COUNT with
        | (k, pok) =>
          if !pok then some ⟨EXIT_FAILURE, 1 + k, 0⟩
          else
            match fillLoop q0 taskStr 0 with
            | none => none
            | some (q1, n) =>
              match blocking_q_put q1 0 true with
              | none => none
              | some _ => some ⟨EXIT_SUCCESS, 1 + k, n⟩

/-- One queue operation in a sequential usage history of a blocking_q. -/
inductive qOp where
  | put (data : task_ptr) (mallocOk : Bool)
  | get
  | drain (sz : Nat)
  | drainAtLeast (sz min : Nat)
  deriving DecidableEq, Repr

/-- State effect of one queue operation (part_000 semantics), dropping the
returned data. -/
def runOp (q : blocking_q) : qOp → Option blocking_q
  | qOp.put d m =>
    match blocking_q_put q d m with
    | none => none
    | some (q', _) => some q'
  | qOp.get =>
    match blocking_q_get q with
    | none => none
    | some (_, q') => some q'
  | qOp.drain sz =>
    match blocking_q_drain q sz with
    | none => none
    | some r => some r.q
  | qOp.drainAtLeast sz mn =>
    match blocking_q_drain_at_least q sz mn with
    | none => none
    | some r => some r.q

/-- Runs a finite sequence of queue operations; `none` as soon as one of
them crashes or blocks forever. -/
def runOps (q : blocking_q) : List qOp → Option blocking_q
  | [] => some q
  | op :: rest =>
    match runOp q op with
    | none => none
    | some q' => runOps q' rest

/-- When the sz counter equals the length of the node chain, the drain
loop removes exactly the whole chain and leaves an empty queue. -/
theorem qDrainLoop_full (l : List task_ptr) :
    qDrainLoop l l.length = some (l, ⟨[], 0⟩) := by
  induction l with
  | nil => rfl
  | cons d rest ih => simp [qDrainLoop, ih]

/-- Every single queue operation that completes preserves the size
invariant sz = length of the chain reachable from first. -/
theorem runOp_inv (q q' : blocking_q) (op : qOp)
    (hq : q.sz = q.first.length) (h : runOp q op = some q') :
    q'.sz = q'.first.length := by
  cases op with
  | put d m =>
    cases m with
    | false =>
      simp [runOp, blocking_q_put] at h
      subst h
      exact hq
    | true =>
      cases hf : q.first with
      | nil => simp [runOp, blocking_q_put, hf] at h
      | cons a rest =>
        simp [runOp, blocking_q_put, hf] at h
        subst h
        simp [hf] at hq
        simp [hq]
  | get =>
    by_cases hz : q.sz = 0
    · simp [runOp, blocking_q_get, hz] at h
    · cases hf : q.first with
      | nil =>
        rw [hf] at hq
        simp at hq
        exact absurd hq hz
      | cons a rest =>
        simp [runOp, blocking_q_get, hz, __blocking_q_take, hf] at h
        subst h
        simp [hf] at hq
        simp
        omega
  | drain sz =>
    by_cases hz : q.sz = 0
    · simp [runOp, blocking_q_drain, hz] at h
      subst h
      exact hq
    · rw [runOp] at h
      rw [blocking_q_drain, if_neg hz, hq, qDrainLoop_full] at h
      by_cases hcap : sz < q.first.length
      · simp [hcap] at h
      · simp [hcap] at h
        subst h
        rfl
  | drainAtLeast sz mn =>
    rw [runOp] at h
    rw [blocking_q_drain_at_least, hq, qDrainLoop_full] at h
    by_cases hcap : sz < q.first.length
    · simp [hcap] at h
    · by_cases hmn : mn > q.first.length
      · simp [hcap, hmn] at h
      · simp [hcap, hmn] at h
        subst h
        rfl

/-- Every completing sequence of queue operations preserves the size
invariant. -/
theorem runOps_inv (ops : List qOp) :
    ∀ q q' : blocking_q, q.sz = q.first.length → runOps q ops = some q' →
      q'.sz = q'.first.length := by
  induction ops with
  | nil =>
    intro q q' hq h
    simp [runOps] at h
    subst h
    exact hq
  | cons op rest ih =>
    intro q q' hq h
    cases hop : runOp q op with
    | none => simp [runOps, hop] at h
    | some q1 =>
      refine ih q1 q' (runOp_inv q q1 op hq hop) ?_
      simpa [runOps, hop] using h

/-- C1: the claim says blocking_q_put appends at the tail and increments
the count on every queue state, including the empty queue, without
dereferencing a non-existent head node. On the initialized empty queue
(first = NULL, sz = 0) with the node malloc succeeding, the traversal
`curr = q->first; while (curr->next != NULL)` reads NULL->next and the
call crashes instead of appending (while the malloc-failure path does
return 0 with the queue unchanged, and a put on a non-empty queue does
append and increment). -/
theorem C1_put_on_empty_queue_crashes :
    blocking_q_put ⟨[], 0⟩ 7 true = none ∧
    blocking_q_put ⟨[], 0⟩ 7 false = some (⟨[], 0⟩, false) ∧
    blocking_q_put ⟨[9], 1⟩ 7 true = some (⟨[9, 7], 2⟩, true) := by
  refine ⟨rfl, rfl, rfl⟩

/-- C2: the claim says the scheduler, on the sentinel, constructs one
sentinel TaskRecord per processor and puts it into every processor queue,
so each of the PROCESSOR_COUNT queues receives exactly one sentinel. In
the code the fan-out mallocs a single record, puts the SAME pointer into
all queues, and frees it before the thread returns: with the processor
queues empty (their normal state at shutdown) the very first put crashes
on the NULL head, and even with non-empty queues only 1 record (not
PROCESSOR_COUNT = 4) is constructed and the one record every queue holds
is freed while still enqueued. -/
theorem C2_sentinel_fanout_at_failing_input :
    scheduler_stop (List.replicate PROCESSOR_COUNT ⟨[], 0⟩) 0 = none ∧
    (scheduler_stop (List.replicate PROCESSOR_COUNT ⟨[9], 1⟩) 0 =
      some ⟨List.replicate PROCESSOR_COUNT ⟨[9, 0], 2⟩, 1, [0]⟩ ∧
      1 ≠ PROCESSOR_COUNT) := by
  refine ⟨rfl, by decide, by decide⟩

/-- C3: the claim says put(a); put(b); put(c) on one queue followed by
three get() calls returns a, b, c. Starting from the queue
blocking_q_init leaves behind (empty, sz = 0), already the first put
dereferences the NULL head and crashes, so no sequence of gets can return
the enqueued elements. -/
theorem C3_first_put_after_init_crashes :
    blocking_q_put (blocking_q_init true true).1 1 true = none := rfl

/-- C4: starting from the empty queue produced by blocking_q_init, every
finite sequence of put/get/drain/drain_at_least operations that completes
leaves q->sz equal to the number of elements reachable from q->first. -/
theorem C4_size_invariant (ops : List qOp) (q' : blocking_q)
    (h : runOps (blocking_q_init true true).1 ops = some q') :
    q'.sz = q'.first.length :=
  runOps_inv ops (blocking_q_init true true).1 q' rfl h

/-- Witness for C4 at the concrete operation sequence
[drain 3, drainAtLeast 2 0], which completes from the initial queue. -/
theorem C4_size_invariant_witness :
    (⟨[], 0⟩ : blocking_q).sz = (⟨[], 0⟩ : blocking_q).first.length :=
  C4_size_invariant [qOp.drain 3, qOp.drainAtLeast 2 0] ⟨[], 0⟩ rfl

/-- C5: the claim says drain on a queue with k <= n elements writes those
k elements into the caller-supplied buffer, returns k, and leaves the
queue empty, and with k > n removes exactly n. In the code, on a queue
with k = 1 element and n = 1 the caller buffer is never written (the data
parameter is overwritten by a fresh malloc) and the function runs off its
end with no return statement, so no count is returned; on a queue with
k = 2 elements and n = 1 the loop drains past the capacity and the store
data[1] overruns the 1-slot area (instead of removing exactly 1). -/
theorem C5_drain_at_failing_input :
    blocking_q_drain ⟨[7], 1⟩ 1 = some ⟨none, ⟨[], 0⟩, [], [7]⟩ ∧
    blocking_q_drain ⟨[5, 6], 2⟩ 1 = none := by
  refine ⟨rfl, rfl⟩

/-- C6: the claim says that under min_count <= max_capacity the function
removes at most max_capacity elements and returns at least min_count. On
a queue holding 3 elements with max_capacity = 2 and min_count = 1 (the
precondition holds), the loop removes all 3 available elements, ignoring
the capacity, and the third store overruns the 2-slot caller buffer, so
the call never returns a count at all; with enough capacity
(max_capacity = 3) the same queue drains fine and returns 3. -/
theorem C6_drain_at_least_at_failing_input :
    blocking_q_drain_at_least ⟨[1, 2, 3], 3⟩ 2 1 = none ∧
    blocking_q_drain_at_least ⟨[1, 2, 3], 3⟩ 3 1 =
      some ⟨3, ⟨[], 0⟩, [1, 2, 3]⟩ := by
  refine ⟨rfl, rfl⟩

/-- C7: the claim says blocking_q_init returns an error indication only
when the synchronization primitives cannot be created, and success
otherwise. In the code a failed pthread_mutex_init or pthread_cond_init
only triggers a printf, and the function returns false unconditionally —
in particular it reports failure even when both primitives are created
successfully (it does leave the queue empty with sz = 0). -/
theorem C7_init_returns_false_despite_success :
    (blocking_q_init true true).2 = false ∧
    (blocking_q_init true true).1 = ⟨[], 0⟩ := by
  refine ⟨rfl, rfl⟩

/-- C8: the claim says every queue operation reads and writes the count
only while holding the queue's lock and holds it across structural
mutation. The source-order action traces of put, get and drain each
violate this discipline: put performs its link write and both sz accesses
with no lock or unlock call anywhere in the function, and get and drain
read sz and mutate the linkage before their only pthread_mutex_lock call
(which comes last). -/
theorem C8_count_touched_without_lock :
    opDiscipline put_trace = false ∧
    opDiscipline get_trace = false ∧
    opDiscipline drain_trace = false := by
  refine ⟨by decide, by decide, by decide⟩

/-- C9: when the scheduler-queue initialization, a thread creation, or a
processor initialization fails, main returns EXIT_FAILURE with no task
ever enqueued into the scheduler queue. (In this code blocking_q_init
always reports failure, so every run in fact exits through the queue-init
check.) -/
theorem C9_failure_exit (argPresent : Bool) (taskStr : List Char)
    (mallocOk mutexOk condOk schedCreateOk : Bool)
    (procCreateOk : Nat → Bool)
    (hfail : mallocOk = false ∨ (blocking_q_init mutexOk condOk).2 = false ∨
      schedCreateOk = false ∨
      (∃ i, i < PROCESSOR_COUNT ∧
        (processor_init i = false ∨ procCreateOk i = false))) :
    ∃ o, mainRun argPresent taskStr mallocOk mutexOk condOk schedCreateOk
        procCreateOk = some o ∧
      o.exit = EXIT_FAILURE ∧ o.tasksEnqueued = 0 := by
  refine ⟨⟨EXIT_FAILURE, 0, 0⟩, ?_, rfl, rfl⟩
  cases argPresent <;> cases mallocOk <;> rfl

/-- Witness for C9: with the argument present, sched_q allocated, both
primitives created and all thread creations succeeding, the queue-init
failure branch of the hypothesis holds and main exits with EXIT_FAILURE
and zero tasks enqueued. -/
theorem C9_failure_exit_witness :
    ∃ o, mainRun true ['A', 'B'] true true true true (fun _ => true) =
        some o ∧ o.exit = EXIT_FAILURE ∧ o.tasksEnqueued = 0 :=
  C9_failure_exit true ['A', 'B'] true true true true (fun _ => true)
    (Or.inr (Or.inl rfl))

/-- C10: blocking_q_init returns false on every call, including when both
primitives are created successfully, so for every task string main exits
with EXIT_FAILURE right after the sched_q malloc and the init call, with
no thread created and no task enqueued. -/
theorem C10_main_always_exits_failure :
    (∀ mutexOk condOk : Bool, (blocking_q_init mutexOk condOk).2 = false) ∧
    ∀ (taskStr : List Char) (mutexOk condOk schedCreateOk : Bool)
      (procCreateOk : Nat → Bool),
      mainRun true taskStr true mutexOk condOk schedCreateOk procCreateOk =
        some ⟨EXIT_FAILURE, 0, 0⟩ := by
  refine ⟨fun _ _ => rfl, fun _ _ _ _ _ => rfl⟩
